import Mathlib

/-!
Verification of the homework-status polling bot (`homework.py`, `exceptions.py`).

The Python source is shallowly embedded: JSON-like values become the
inductive `Val`, each Python exception class becomes a constructor of
`Err`, each pipeline function (`check_tokens`, `get_api_answer`,
`check_response`, `parse_status`, `send_message`) becomes a Lean
function of the same name, and one iteration of the `while True` body of
`main` becomes `runCycle` over an explicit `LoopState`; `runLoop` chains
cycles.  Network and messaging effects are supplied by a per-cycle
oracle `CycleEnv`.
-/

set_option linter.unusedTactic false

namespace HomeworkBot

/-! ## Definitions: the embedded program -/

/-- A Python/JSON value as handled by the bot: `None`, `int`, `str`,
`list` and string-keyed `dict` (the shapes producible by
`response.json()` that the code inspects). -/
inductive Val where
  | null : Val
  | int (n : Int) : Val
  | str (s : String) : Val
  | list (xs : List Val) : Val
  | dict (kvs : List (String × Val)) : Val

/-- The exceptions the program can raise or observe.  The first five come
from `exceptions.py`; `typeError`, `attributeError`, `indexError` and
`keyError` model the corresponding Python builtins raised by
`homework.py` or by the runtime. -/
inductive Err where
  | envVariableError (msg : String) : Err
  | missingKeyError (msg : String) : Err
  | unexpectedStatusError (msg : String) : Err
  | apiUnavailableError (msg : String) : Err
  | notJSONResponseError (msg : String) : Err
  | typeError (msg : String) : Err
  | attributeError (msg : String) : Err
  | indexError (msg : String) : Err
  | keyError (reprArg : String) : Err

/-- Python `dict.get(key)`: the first binding of `key`, else `None`. -/
def pyGet : List (String × Val) → String → Val
  | [], _ => .null
  | (k, v) :: rest, key => if k = key then v else pyGet rest key

/-- The short Python type name of a value (as in `type(x).__name__`). -/
def pyTypeShort : Val → String
  | .null => "NoneType"
  | .int _ => "int"
  | .str _ => "str"
  | .list _ => "list"
  | .dict _ => "dict"

/-- Python `str(type(x))`, e.g. `<class 'dict'>`. -/
def pyTypeName (v : Val) : String :=
  "<class \x27" ++ pyTypeShort v ++ "\x27>"

mutual
/-- Python `repr` of a value (quote-free string contents assumed). -/
def pyReprVal : Val → String
  | .null => "None"
  | .int n => toString n
  | .str s => "\x27" ++ s ++ "\x27"
  | .list xs => "[" ++ pyReprList xs ++ "]"
  | .dict kvs => "\x7b" ++ pyReprDict kvs ++ "\x7d"

/-- Render the comma-separated elements of a list via `repr`. -/
def pyReprList : List Val → String
  | [] => ""
  | [x] => pyReprVal x
  | x :: xs => pyReprVal x ++ ", " ++ pyReprList xs

/-- Render the comma-separated entries of a dict via `repr`. -/
def pyReprDict : List (String × Val) → String
  | [] => ""
  | [(k, v)] => "\x27" ++ k ++ "\x27: " ++ pyReprVal v
  | (k, v) :: kvs => "\x27" ++ k ++ "\x27: " ++ pyReprVal v ++ ", " ++ pyReprDict kvs
end

/-- Python `str(x)` as used by f-string interpolation: strings are taken
verbatim, every other value through `repr`. -/
def pyStr : Val → String
  | .str s => s
  | v => pyReprVal v

/-- Python truthiness (`if homeworks:`). -/
def pyTruthy : Val → Bool
  | .null => false
  | .int n => n != 0
  | .str s => s != ""
  | .list xs => !xs.isEmpty
  | .dict kvs => !kvs.isEmpty

/-- Python `x is None`. -/
def isNull : Val → Bool
  | .null => true
  | _ => false

/-- Python `isinstance(x, int)`. -/
def isIntVal : Val → Bool
  | .int _ => true
  | _ => false

/-- Python `isinstance(x, list)`. -/
def isListVal : Val → Bool
  | .list _ => true
  | _ => false

/-- Python `isinstance(x, dict)`. -/
def isDictVal : Val → Bool
  | .dict _ => true
  | _ => false

/-- Attribute access `v.get(key)`: succeeds on dicts, raises
`AttributeError` on anything else (as CPython does). -/
def pyDictGet (v : Val) (key : String) : Except Err Val :=
  match v with
  | .dict kvs => .ok (pyGet kvs key)
  | v => .error (.attributeError
      ("\x27" ++ pyTypeShort v ++ "\x27 object has no attribute \x27" ++ key ++ "\x27"))

/-- Subscript `v[0]`, as CPython evaluates it on each value shape. -/
def pySubscript0 : Val → Except Err Val
  | .list (x :: _) => .ok x
  | .list [] => .error (.indexError "list index out of range")
  | .str s =>
      match s.toList with
      | c :: _ => .ok (.str ⟨[c]⟩)
      | [] => .error (.indexError "string index out of range")
  | .dict _ => .error (.keyError "0")
  | .int _ => .error (.typeError "\x27int\x27 object is not subscriptable")
  | .null => .error (.typeError "\x27NoneType\x27 object is not subscriptable")

/-- Python `str(error)` for each exception: plain `Exception` subclasses render
their message; `UnexpectedStatusError` subclasses `KeyError`, whose
`str` is the `repr` of its argument (quotes around the message). -/
def errText : Err → String
  | .envVariableError m => m
  | .missingKeyError m => m
  | .unexpectedStatusError m => "\x27" ++ m ++ "\x27"
  | .apiUnavailableError m => m
  | .notJSONResponseError m => m
  | .typeError m => m
  | .attributeError m => m
  | .indexError m => m
  | .keyError r => r

/-- The three environment variables of the bot. -/
structure Config where
  practicum_token : Option String
  telegram_token : Option String
  telegram_chat_id : Option String

/-- The `RETRY_PERIOD` constant of `homework.py`. -/
def RETRY_PERIOD : Nat := 600

/-- The `ENDPOINT` constant of `homework.py`. -/
def ENDPOINT : String := "https://practicum.yandex.ru/api/user_api/homework_statuses/"

/-- The `HOMEWORK_VERDICTS` dict of `homework.py`. -/
def HOMEWORK_VERDICTS : List (String × String) :=
  [("approved", "Работа проверена: ревьюеру всё понравилось. Ура!"),
   ("reviewing", "Работа взята на проверку ревьюером."),
   ("rejected", "Работа проверена: у ревьюера есть замечания.")]

/-- One insertion into a Python dict: if the key is already present its
value is replaced in place, otherwise the pair is appended (CPython
insertion-order semantics). -/
def dictInsert (d : List (Option String × String)) (k : Option String) (v : String) :
    List (Option String × String) :=
  if d.any (fun p => p.1 == k) then
    d.map (fun p => if p.1 == k then (k, v) else p)
  else
    d ++ [(k, v)]

/-- The `env_variables` dict literal built inside `check_tokens`: keyed by
the token VALUES (so equal values collapse), mapping to the variable
names. -/
def envDict (cfg : Config) : List (Option String × String) :=
  dictInsert
    (dictInsert
      (dictInsert [] cfg.practicum_token "PRACTICUM_TOKEN")
      cfg.telegram_token "TELEGRAM_TOKEN")
    cfg.telegram_chat_id "TELEGRAM_CHAT_ID"

/-- The function `check_tokens`: iterate the env dict in insertion order and raise
`EnvVariableError` at the first `None` key. -/
def check_tokens (cfg : Config) : Except Err Unit :=
  match (envDict cfg).find? (fun p => p.1.isNone) with
  | some (_, name) => .error (.envVariableError
      ("Отсутствует обязательная переменная окружения: " ++ name
        ++ ". Программа принудительно остановлена."))
  | none => .ok ()

/-- What the HTTP layer produced for one `requests.get` call: either an
exception at request time, or a response carrying a status code and an
optional JSON body (`none` models a `JSONDecodeError` from
`response.json()`). -/
structure HttpResp where
  status_code : Nat
  body : Option Val

/-- Outcome of the network call for one cycle. -/
inductive FetchOutcome where
  | exn (err : String) : FetchOutcome
  | resp (r : HttpResp) : FetchOutcome

/-- The function `get_api_answer`: classify the fetch outcome exactly as the source
does (request exception, non-200 status, JSON decode failure). -/
def get_api_answer (outcome : FetchOutcome) : Except Err Val :=
  match outcome with
  | .exn err => .error (.apiUnavailableError
      ("Эндпоинт " ++ ENDPOINT ++ " недоступен. " ++ err))
  | .resp r =>
    if r.status_code ≠ 200 then
      .error (.apiUnavailableError
        ("Эндпоинт " ++ ENDPOINT ++ " недоступен. Код ответа API: "
          ++ toString r.status_code))
    else
      match r.body with
      | some v => .ok v
      | none => .error (.notJSONResponseError
          ("API " ++ ENDPOINT ++ " вернул ответ не в json формате."))

/-- The function `check_response`: shape checks on the parsed body, in source order
(dict check, then missing-key checks, then value-type checks). -/
def check_response (response : Val) : Except Err Unit :=
  match response with
  | .dict kvs =>
    let current_date := pyGet kvs "current_date"
    let homeworks := pyGet kvs "homeworks"
    if isNull current_date then
      .error (.missingKeyError "В ответе API отсутствует ключ current_date")
    else if isNull homeworks then
      .error (.missingKeyError "В ответе API отсутствует ключ homeworks")
    else if !isIntVal current_date then
      .error (.typeError
        ("В ответе API значение ключа current_date имеет некорректный тип "
          ++ pyTypeName current_date ++ ". Ожидается: int"))
    else if !isListVal homeworks then
      .error (.typeError
        ("В ответе API значение ключа homeworks имеет некорректный тип "
          ++ pyTypeName homeworks ++ ". Ожидается: list"))
    else
      .ok ()
  | v => .error (.typeError
      ("В ответе API структура данных не соответствует ожиданиям. Получен тип "
        ++ pyTypeName v ++ ". Ожидается: dict"))

/-- Subscript `HOMEWORK_VERDICTS[status]` with a `Val` key: unhashable keys raise
`TypeError`; hashable keys that are absent raise `KeyError`, which
`parse_status` converts to `UnexpectedStatusError`. -/
def verdictSubscript (status : Val) : Except Err String :=
  match status with
  | .list _ => .error (.typeError "unhashable type: \x27list\x27")
  | .dict _ => .error (.typeError "unhashable type: \x27dict\x27")
  | .str s =>
      match HOMEWORK_VERDICTS.lookup s with
      | some verdict => .ok verdict
      | none => .error (.unexpectedStatusError
          ("Неожиданный статус домашней работы в ответе API: " ++ s))
  | v => .error (.unexpectedStatusError
      ("Неожиданный статус домашней работы в ответе API: " ++ pyStr v))

/-- The function `parse_status`: extract the name and status, check both for `None`,
map the status through the verdict dict, format the message. -/
def parse_status (homework : Val) : Except Err String :=
  match pyDictGet homework "homework_name" with
  | .error e => .error e
  | .ok homework_name =>
    match pyDictGet homework "status" with
    | .error e => .error e
    | .ok status =>
      if isNull homework_name then
        .error (.missingKeyError "В ответе API отсутствует ключ homework_name")
      else if isNull status then
        .error (.missingKeyError "В ответе API отсутствует ключ status")
      else
        match verdictSubscript status with
        | .error e => .error e
        | .ok verdict =>
          .ok ("Изменился статус проверки работы \"" ++ pyStr homework_name
            ++ "\". " ++ verdict)

/-- Severity of a log line. -/
inductive LogLevel where
  | debug : LogLevel
  | error : LogLevel
  | critical : LogLevel
deriving DecidableEq

/-- One log line (level and formatted message). -/
structure LogEvent where
  level : LogLevel
  msg : String
deriving DecidableEq

/-- The record of one outbound `requests.get` call: fixed URL, the
`Authorization` header from `HEADERS`, and the `from_date` parameter. -/
structure Request where
  url : String
  authorization : String
  from_date : Val

/-- The request `get_api_answer` issues for cursor `timestamp`: module
constant `HEADERS` renders a missing token the way the f-string would
(`OAuth None`). -/
def buildRequest (cfg : Config) (timestamp : Val) : Request :=
  { url := ENDPOINT,
    authorization := "OAuth " ++ (match cfg.practicum_token with
      | some t => t
      | none => "None"),
    from_date := timestamp }

/-- The oracle for one cycle: what the HTTP layer returns, and whether a
`bot.send_message` call this cycle succeeds (`none`) or raises a
`TelegramError` with the given text (`some`). -/
structure CycleEnv where
  fetch : FetchOutcome
  send : Option String

/-- The function `send_message`: deliver and log at debug, or swallow the
`TelegramError` and log at error.  Returns the delivered messages and
the log lines; it never raises. -/
def send_message (sendRes : Option String) (message : String) :
    List String × List LogEvent :=
  match sendRes with
  | none => ([message], [⟨.debug, "Бот отправил сообщение " ++ message⟩])
  | some e => ([], [⟨.error, "Не удалось отправить сообщение по причине: " ++ e⟩])

/-- The mutable state of `main` across cycles: the `timestamp` cursor
(a Python object, an `int` on every reachable assignment) and the
`last_error_message` dedup marker. -/
structure LoopState where
  timestamp : Val
  last_error_message : String

/-- Everything one cycle produced: the next state, whether `sys.exit`
ran, the HTTP requests issued, the messages passed to `send_message`,
the messages actually delivered, and the log lines. -/
structure CycleResult where
  state : LoopState
  halted : Bool
  requests : List Request
  sendAttempts : List String
  delivered : List String
  logs : List LogEvent

/-- The `try` block of one cycle up to (but excluding) the send and the
state assignments: either the caught exception, or the optional status
notification text paired with `response.get('current_date')`. -/
def tryOutcome (cfg : Config) (env : CycleEnv) : Except Err (Option String × Val) :=
  match check_tokens cfg with
  | .error e => .error e
  | .ok _ =>
    match get_api_answer env.fetch with
    | .error e => .error e
    | .ok response =>
      match check_response response with
      | .error e => .error e
      | .ok _ =>
        match pyDictGet response "homeworks" with
        | .error e => .error e
        | .ok homeworks =>
          if pyTruthy homeworks then
            match pySubscript0 homeworks with
            | .error e => .error e
            | .ok homework =>
              match parse_status homework with
              | .error e => .error e
              | .ok message =>
                match pyDictGet response "current_date" with
                | .error e => .error e
                | .ok current_date => .ok (some message, current_date)
          else
            match pyDictGet response "current_date" with
            | .error e => .error e
            | .ok current_date => .ok (none, current_date)

/-- One iteration of the `while True` body of `main` (the final
`time.sleep` has no observable state). -/
def runCycle (cfg : Config) (env : CycleEnv) (st : LoopState) : CycleResult :=
  match tryOutcome cfg env with
  | .ok (msg?, current_date) =>
    let sent := match msg? with
      | some m => send_message env.send m
      | none => ([], [⟨.debug, "Новый статус отсутствует"⟩])
    { state := { timestamp := current_date, last_error_message := "" },
      halted := false,
      requests := [buildRequest cfg st.timestamp],
      sendAttempts := (match msg? with | some m => [m] | none => []),
      delivered := sent.1,
      logs := sent.2 }
  | .error (.envVariableError m) =>
    { state := st,
      halted := true,
      requests := [],
      sendAttempts := [],
      delivered := [],
      logs := [⟨.critical, m⟩] }
  | .error e =>
    let message := "Сбой в работе программы: " ++ errText e
    if message ≠ st.last_error_message then
      let sent := send_message env.send message
      { state := { st with last_error_message := message },
        halted := false,
        requests := [buildRequest cfg st.timestamp],
        sendAttempts := [message],
        delivered := sent.1,
        logs := ⟨.error, message⟩ :: sent.2 }
    else
      { state := st,
        halted := false,
        requests := [buildRequest cfg st.timestamp],
        sendAttempts := [],
        delivered := [],
        logs := [⟨.error, message⟩] }

/-- Run the loop over a list of per-cycle oracles; `sys.exit` stops it. -/
def runLoop (cfg : Config) (st : LoopState) : List CycleEnv → List CycleResult
  | [] => []
  | env :: rest =>
    let r := runCycle cfg env st
    if r.halted then [r] else r :: runLoop cfg r.state rest

/-- The outward-facing error message a cycle would report, if its `try`
block fails with a recoverable (non-configuration) exception.  It
depends only on the configuration and the cycle oracle, not on the
loop state. -/
def cycleErrorMessage (cfg : Config) (env : CycleEnv) : Option String :=
  match tryOutcome cfg env with
  | .ok _ => none
  | .error (.envVariableError _) => none
  | .error e => some ("Сбой в работе программы: " ++ errText e)

/-- A message contains a substring (used for the "names the key / the
type / the status code" parts of the claims). -/
def mentions (msg sub : String) : Prop :=
  ∃ pre post, msg = pre ++ sub ++ post

/-- Is the exception the fatal configuration error? -/
def isEnvErr : Err → Bool
  | .envVariableError _ => true
  | _ => false

/-- Is the exception one of the contract errors of the spec (missing
key or type mismatch)? -/
def isContractErr : Err → Bool
  | .missingKeyError _ => true
  | .typeError _ => true
  | _ => false

/-- Does the result carry an `UnexpectedStatusError`? -/
def isUnexpectedStatusResult : Except Err String → Bool
  | .error (.unexpectedStatusError _) => true
  | _ => false

/-- Is the status one of the three keys of `HOMEWORK_VERDICTS`? -/
def statusKnown : Val → Bool
  | .str s => (HOMEWORK_VERDICTS.lookup s).isSome
  | _ => false

/-- A complete configuration. -/
def cfgW : Config := ⟨some "practicum-token", some "telegram-token", some "chat-id"⟩

/-- A configuration missing `PRACTICUM_TOKEN`. -/
def cfgM : Config := ⟨none, some "telegram-token", some "chat-id"⟩

/-- The loop state at startup of a concrete run. -/
def st0 : LoopState := ⟨.int 0, ""⟩

/-- A cycle whose fetch returns HTTP 404 (send would succeed). -/
def env404 : CycleEnv := ⟨.resp ⟨404, none⟩, none⟩

/-- A cycle whose fetch returns HTTP 404 and whose send raises. -/
def env404sf : CycleEnv := ⟨.resp ⟨404, none⟩, some "boom"⟩

/-- A cycle whose fetch returns HTTP 500. -/
def env500 : CycleEnv := ⟨.resp ⟨500, none⟩, none⟩

/-- The outward error message for a 404 cycle. -/
def m404 : String :=
  "Сбой в работе программы: Эндпоинт " ++ ENDPOINT ++ " недоступен. Код ответа API: 404"

/-- The outward error message for a 500 cycle. -/
def m500 : String :=
  "Сбой в работе программы: Эндпоинт " ++ ENDPOINT ++ " недоступен. Код ответа API: 500"

/-- The homework record of the C5 scenario. -/
def hw1 : Val := .dict [("homework_name", .str "hw1"), ("status", .str "approved")]

/-- The response of the C5 scenario. -/
def resp1000 : Val := .dict [("current_date", .int 1000), ("homeworks", .list [hw1])]

/-- A successful fetch of `resp1000` with a working send. -/
def envOk : CycleEnv := ⟨.resp ⟨200, some resp1000⟩, none⟩

/-- The notification text of the C5 scenario. -/
def msg1 : String :=
  "Изменился статус проверки работы \"hw1\". Работа проверена: ревьюеру всё понравилось. Ура!"

/-- A valid response with no homework records. -/
def respEmpty : Val := .dict [("current_date", .int 77), ("homeworks", .list [])]

/-- A successful fetch of `respEmpty`. -/
def envEmpty : CycleEnv := ⟨.resp ⟨200, some respEmpty⟩, none⟩

/-- A successful fetch of `resp1000` whose send raises `TelegramError`. -/
def envOkSf : CycleEnv := ⟨.resp ⟨200, some resp1000⟩, some "boom"⟩

/-- A fetch returning HTTP 200 with an unparseable (non-JSON) body. -/
def envBadJson : CycleEnv := ⟨.resp ⟨200, none⟩, none⟩

/-- A contract error as the spec describes it: a missing-key failure
naming the key, or a type-mismatch failure naming the actual type (via
`pyTypeName`) and the expected type. -/
def contractErrorNamed (e : Err) : Prop :=
  (∃ msg, e = .missingKeyError msg ∧
    (mentions msg "current_date" ∨ mentions msg "homeworks")) ∨
  (∃ msg actual, e = .typeError msg ∧ mentions msg (pyTypeName actual) ∧
    (mentions msg "Ожидается: dict" ∨ mentions msg "Ожидается: int" ∨
      mentions msg "Ожидается: list"))

/-- Is the value hashable in Python (usable as a dict key)?  Lists and
dicts are not; `None`, numbers and strings are. -/
def pyHashable : Val → Bool
  | .list _ => false
  | .dict _ => false
  | _ => true

/-- A homework record whose status is the unhashable value `[]`. -/
def hwListStatus : Val :=
  .dict [("homework_name", .str "hw1"), ("status", .list [])]

/-- A response carrying `hwListStatus` as its only record. -/
def respListStatus : Val :=
  .dict [("current_date", .int 5), ("homeworks", .list [hwListStatus])]

/-- A homework record with the unknown (but hashable) status "weird". -/
def hwWeird : Val :=
  .dict [("homework_name", .str "hw1"), ("status", .str "weird")]

/-- A response carrying `hwWeird` as its only record. -/
def respWeird : Val :=
  .dict [("current_date", .int 5), ("homeworks", .list [hwWeird])]

/-- A successful fetch of `respWeird`. -/
def envWeird : CycleEnv := ⟨.resp ⟨200, some respWeird⟩, none⟩

/-! ## Theorems -/

theorem isNull_eq_true_iff (v : Val) : isNull v = true ↔ v = .null := by
  cases v <;> simp [isNull]

theorem pyGet_cons_self (k : String) (v : Val) (kvs : List (String × Val)) :
    pyGet ((k, v) :: kvs) k = v := by
  simp [pyGet]

theorem pyGet_cons_ne (k k' : String) (v : Val) (kvs : List (String × Val))
    (h : k ≠ k') : pyGet ((k, v) :: kvs) k' = pyGet kvs k' := by
  simp [pyGet, h]

theorem pyGet_absent (kvs : List (String × Val)) (k : String)
    (h : ∀ p ∈ kvs, p.1 ≠ k) : pyGet kvs k = .null := by
  induction kvs with
  | nil => rfl
  | cons p rest ih =>
    obtain ⟨k', v⟩ := p
    have hk : k' ≠ k := h (k', v) (by simp)
    rw [pyGet_cons_ne k' k v rest hk]
    exact ih (fun q hq => h q (by simp [hq]))

theorem mem_dictInsert (d : List (Option String × String)) (k : Option String)
    (v : String) (p : Option String × String) (hp : p ∈ dictInsert d k v) :
    p.1 = k ∨ ∃ q ∈ d, p.1 = q.1 := by
  unfold dictInsert at hp
  split at hp
  · obtain ⟨q, hq, hfq⟩ := List.mem_map.mp hp
    by_cases hqk : q.1 == k
    · rw [if_pos hqk] at hfq
      left
      rw [← hfq]
    · rw [if_neg hqk] at hfq
      right
      exact ⟨q, hq, by rw [← hfq]⟩
  · rcases List.mem_append.mp hp with h1 | h2
    · right
      exact ⟨p, h1, rfl⟩
    · left
      simp only [List.mem_singleton] at h2
      rw [h2]

theorem dictInsert_key_mem (d : List (Option String × String)) (k : Option String)
    (v : String) : ∃ p ∈ dictInsert d k v, p.1 = k := by
  unfold dictInsert
  split
  case isTrue h =>
    obtain ⟨q, hq, hqk⟩ := List.any_eq_true.mp h
    refine ⟨(k, v), List.mem_map.mpr ⟨q, hq, ?_⟩, rfl⟩
    rw [if_pos hqk]
  case isFalse h =>
    exact ⟨(k, v), List.mem_append.mpr (Or.inr (by simp)), rfl⟩

theorem dictInsert_key_preserved (d : List (Option String × String))
    (k k0 : Option String) (v : String) (h : ∃ p ∈ d, p.1 = k0) :
    ∃ p ∈ dictInsert d k v, p.1 = k0 := by
  obtain ⟨p, hp, hpk⟩ := h
  unfold dictInsert
  split
  · by_cases hpk' : p.1 == k
    · refine ⟨(k, v), List.mem_map.mpr ⟨p, hp, by rw [if_pos hpk']⟩, ?_⟩
      have : p.1 = k := by simpa using hpk'
      rw [← this, hpk]
    · exact ⟨p, List.mem_map.mpr ⟨p, hp, by rw [if_neg hpk']⟩, hpk⟩
  · exact ⟨p, List.mem_append.mpr (Or.inl hp), hpk⟩

theorem check_tokens_complete (a b c : String) :
    check_tokens ⟨some a, some b, some c⟩ = .ok () := by
  unfold check_tokens
  have hkeys : ∀ p ∈ envDict ⟨some a, some b, some c⟩, p.1.isNone = false := by
    intro p hp
    have h1 := mem_dictInsert _ _ _ p hp
    rcases h1 with h | ⟨q, hq, hqq⟩
    · simp [h]
    · have h2 := mem_dictInsert _ _ _ q hq
      rcases h2 with h | ⟨q', hq', hqq'⟩
      · simp [hqq, h]
      · have h3 := mem_dictInsert _ _ _ q' hq'
        rcases h3 with h | ⟨q'', hq'', _⟩
        · simp [hqq, hqq', h]
        · simp at hq''
  rw [List.find?_eq_none.mpr (fun p hp => by simp [hkeys p hp])]

theorem check_tokens_missing (cfg : Config)
    (h : cfg.practicum_token = none ∨ cfg.telegram_token = none ∨
      cfg.telegram_chat_id = none) :
    ∃ m, check_tokens cfg = .error (.envVariableError m) := by
  have hmem : ∃ p ∈ envDict cfg, p.1 = none := by
    unfold envDict
    rcases h with h | h | h
    · apply dictInsert_key_preserved
      apply dictInsert_key_preserved
      rw [h]
      exact dictInsert_key_mem [] none "PRACTICUM_TOKEN"
    · apply dictInsert_key_preserved
      rw [h]
      exact dictInsert_key_mem _ none "TELEGRAM_TOKEN"
    · rw [h]
      exact dictInsert_key_mem _ none "TELEGRAM_CHAT_ID"
  unfold check_tokens
  cases hfind : (envDict cfg).find? (fun p => p.1.isNone) with
  | some pr => exact ⟨_, rfl⟩
  | none =>
    exfalso
    obtain ⟨p, hp, hpk⟩ := hmem
    have := List.find?_eq_none.mp hfind p hp
    simp [hpk] at this

theorem get_api_answer_not_env (f : FetchOutcome) (e : Err)
    (h : get_api_answer f = .error e) : isEnvErr e = false := by
  cases f <;> simp only [get_api_answer] at h <;> (try split at h) <;> (try split at h) <;> (try split at h) <;> (try split at h) <;> (try split at h)
  all_goals try (rw [← Except.error.inj h]; rfl)
  all_goals simp_all

theorem check_response_not_env (r : Val) (e : Err)
    (h : check_response r = .error e) : isEnvErr e = false := by
  cases r <;> simp only [check_response] at h <;> (try split at h) <;> (try split at h) <;> (try split at h) <;> (try split at h) <;> (try split at h)
  all_goals try (rw [← Except.error.inj h]; rfl)
  all_goals simp_all

theorem pyDictGet_not_env (v : Val) (key : String) (e : Err)
    (h : pyDictGet v key = .error e) : isEnvErr e = false := by
  cases v <;> simp only [pyDictGet] at h
  all_goals try (rw [← Except.error.inj h]; rfl)
  all_goals simp_all

theorem pySubscript0_not_env (v : Val) (e : Err)
    (h : pySubscript0 v = .error e) : isEnvErr e = false := by
  cases v <;> simp only [pySubscript0] at h <;> (try split at h) <;> (try split at h) <;> (try split at h) <;> (try split at h) <;> (try split at h)
  all_goals try (rw [← Except.error.inj h]; rfl)
  all_goals simp_all

theorem verdictSubscript_not_env (v : Val) (e : Err)
    (h : verdictSubscript v = .error e) : isEnvErr e = false := by
  cases v <;> simp only [verdictSubscript] at h <;> (try split at h) <;> (try split at h) <;> (try split at h) <;> (try split at h) <;> (try split at h)
  all_goals try (rw [← Except.error.inj h]; rfl)
  all_goals simp_all

theorem parse_status_not_env (hw : Val) (e : Err)
    (h : parse_status hw = .error e) : isEnvErr e = false := by
  unfold parse_status at h
  cases hdg : pyDictGet hw "homework_name" with
  | error e' =>
    simp only [hdg, Except.error.injEq] at h
    rw [← h]
    exact pyDictGet_not_env _ _ _ hdg
  | ok homework_name =>
    simp only [hdg] at h
    cases hdg2 : pyDictGet hw "status" with
    | error e' =>
      simp only [hdg2, Except.error.injEq] at h
      rw [← h]
      exact pyDictGet_not_env _ _ _ hdg2
    | ok status =>
      simp only [hdg2] at h
      split at h
      · simp only [Except.error.injEq] at h; rw [← h]; rfl
      · split at h
        · simp only [Except.error.injEq] at h; rw [← h]; rfl
        · cases hv : verdictSubscript status with
          | error e' =>
            simp only [hv, Except.error.injEq] at h
            rw [← h]
            exact verdictSubscript_not_env _ _ hv
          | ok verdict => simp only [hv] at h; simp at h

theorem tryOutcome_not_env (cfg : Config) (env : CycleEnv) (e : Err)
    (hok : check_tokens cfg = .ok ()) (h : tryOutcome cfg env = .error e) :
    isEnvErr e = false := by
  unfold tryOutcome at h
  simp only [hok] at h
  cases hga : get_api_answer env.fetch with
  | error e' =>
    simp only [hga] at h
    simp only [Except.error.injEq] at h
    rw [← h]
    exact get_api_answer_not_env _ _ hga
  | ok response =>
    simp only [hga] at h
    cases hcr : check_response response with
    | error e' =>
      simp only [hcr] at h
      simp only [Except.error.injEq] at h
      rw [← h]
      exact check_response_not_env _ _ hcr
    | ok u =>
      simp only [hcr] at h
      cases hdg : pyDictGet response "homeworks" with
      | error e' =>
        simp only [hdg] at h
        simp only [Except.error.injEq] at h
        rw [← h]
        exact pyDictGet_not_env _ _ _ hdg
      | ok homeworks =>
        simp only [hdg] at h
        by_cases ht : pyTruthy homeworks
        · simp only [if_pos ht] at h
          cases hs : pySubscript0 homeworks with
          | error e' =>
            simp only [hs] at h
            simp only [Except.error.injEq] at h
            rw [← h]
            exact pySubscript0_not_env _ _ hs
          | ok homework =>
            simp only [hs] at h
            cases hp : parse_status homework with
            | error e' =>
              simp only [hp] at h
              simp only [Except.error.injEq] at h
              rw [← h]
              exact parse_status_not_env _ _ hp
            | ok message =>
              simp only [hp] at h
              cases hdg2 : pyDictGet response "current_date" with
              | error e' =>
                simp only [hdg2] at h
                simp only [Except.error.injEq] at h
                rw [← h]
                exact pyDictGet_not_env _ _ _ hdg2
              | ok cd => simp only [hdg2] at h; simp at h
        · simp only [if_neg ht] at h
          cases hdg2 : pyDictGet response "current_date" with
          | error e' =>
            simp only [hdg2] at h
            simp only [Except.error.injEq] at h
            rw [← h]
            exact pyDictGet_not_env _ _ _ hdg2
          | ok cd => simp only [hdg2] at h; simp at h

theorem cycleErrorMessage_spec (cfg : Config) (env : CycleEnv) (m : String)
    (h : cycleErrorMessage cfg env = some m) :
    ∃ e, tryOutcome cfg env = .error e ∧ isEnvErr e = false ∧
      m = "Сбой в работе программы: " ++ errText e := by
  unfold cycleErrorMessage at h
  cases htry : tryOutcome cfg env with
  | ok v => rw [htry] at h; simp at h
  | error e =>
    rw [htry] at h
    cases e <;> simp only [Option.some.injEq] at h <;>
      first
        | exact ⟨_, rfl, rfl, h.symm⟩
        | simp at h

theorem runCycle_eq_ok_none (cfg : Config) (env : CycleEnv) (st : LoopState)
    (cd : Val) (htry : tryOutcome cfg env = .ok (none, cd)) :
    runCycle cfg env st =
      { state := { timestamp := cd, last_error_message := "" },
        halted := false,
        requests := [buildRequest cfg st.timestamp],
        sendAttempts := [],
        delivered := [],
        logs := [⟨.debug, "Новый статус отсутствует"⟩] } := by
  unfold runCycle
  rw [htry]

theorem runCycle_eq_ok_some (cfg : Config) (env : CycleEnv) (st : LoopState)
    (m : String) (cd : Val) (htry : tryOutcome cfg env = .ok (some m, cd)) :
    runCycle cfg env st =
      { state := { timestamp := cd, last_error_message := "" },
        halted := false,
        requests := [buildRequest cfg st.timestamp],
        sendAttempts := [m],
        delivered := (send_message env.send m).1,
        logs := (send_message env.send m).2 } := by
  unfold runCycle
  rw [htry]

theorem runCycle_eq_env (cfg : Config) (env : CycleEnv) (st : LoopState)
    (m : String) (htry : tryOutcome cfg env = .error (.envVariableError m)) :
    runCycle cfg env st =
      { state := st, halted := true, requests := [], sendAttempts := [],
        delivered := [], logs := [⟨.critical, m⟩] } := by
  unfold runCycle
  rw [htry]

theorem runCycle_eq_fail (cfg : Config) (env : CycleEnv) (st : LoopState)
    (e : Err) (htry : tryOutcome cfg env = .error e) (henv : isEnvErr e = false) :
    runCycle cfg env st =
      (if ("Сбой в работе программы: " ++ errText e) ≠ st.last_error_message then
        { state := { st with
            last_error_message := "Сбой в работе программы: " ++ errText e },
          halted := false,
          requests := [buildRequest cfg st.timestamp],
          sendAttempts := ["Сбой в работе программы: " ++ errText e],
          delivered :=
            (send_message env.send ("Сбой в работе программы: " ++ errText e)).1,
          logs := ⟨.error, "Сбой в работе программы: " ++ errText e⟩ ::
            (send_message env.send ("Сбой в работе программы: " ++ errText e)).2 }
       else
        { state := st, halted := false,
          requests := [buildRequest cfg st.timestamp],
          sendAttempts := [], delivered := [],
          logs := [⟨.error, "Сбой в работе программы: " ++ errText e⟩] }) := by
  unfold runCycle
  rw [htry]
  cases e
  case envVariableError s => simp [isEnvErr] at henv
  all_goals rfl

theorem isContractErr_not_env (e : Err) (h : isContractErr e = true) :
    isEnvErr e = false := by
  cases e <;> simp_all [isContractErr, isEnvErr]

theorem runCycle_fail_new (cfg : Config) (env : CycleEnv) (st : LoopState)
    (m : String) (h : cycleErrorMessage cfg env = some m)
    (hnew : st.last_error_message ≠ m) :
    runCycle cfg env st =
      { state := { st with last_error_message := m },
        halted := false,
        requests := [buildRequest cfg st.timestamp],
        sendAttempts := [m],
        delivered := (send_message env.send m).1,
        logs := ⟨.error, m⟩ :: (send_message env.send m).2 } := by
  obtain ⟨e, htry, henv, hm⟩ := cycleErrorMessage_spec cfg env m h
  subst hm
  rw [runCycle_eq_fail cfg env st e htry henv, if_pos (Ne.symm hnew)]

theorem runCycle_fail_old (cfg : Config) (env : CycleEnv) (st : LoopState)
    (m : String) (h : cycleErrorMessage cfg env = some m)
    (hold : st.last_error_message = m) :
    runCycle cfg env st =
      { state := st,
        halted := false,
        requests := [buildRequest cfg st.timestamp],
        sendAttempts := [],
        delivered := [],
        logs := [⟨.error, m⟩] } := by
  obtain ⟨e, htry, henv, hm⟩ := cycleErrorMessage_spec cfg env m h
  subst hm
  rw [runCycle_eq_fail cfg env st e htry henv, if_neg (not_not.mpr hold.symm)]

theorem runCycle_fail_facts (cfg : Config) (env : CycleEnv) (st : LoopState)
    (e : Err) (htry : tryOutcome cfg env = .error e) (henv : isEnvErr e = false) :
    (runCycle cfg env st).state.timestamp = st.timestamp ∧
    (runCycle cfg env st).halted = false := by
  rw [runCycle_eq_fail cfg env st e htry henv]
  split <;> exact ⟨rfl, rfl⟩

theorem runLoop_same_error (cfg : Config) (m : String) (envs : List CycleEnv) :
    ∀ st : LoopState, st.last_error_message = m →
      (∀ e ∈ envs, cycleErrorMessage cfg e = some m) →
      ∀ r ∈ runLoop cfg st envs,
        r.sendAttempts = [] ∧ LogEvent.mk .error m ∈ r.logs := by
  induction envs with
  | nil =>
    intro st _ _ r hr
    simp [runLoop] at hr
  | cons env rest ih =>
    intro st hst hall r hr
    have hc := runCycle_fail_old cfg env st m (hall env (by simp)) hst
    unfold runLoop at hr
    rw [hc] at hr
    cases hr with
    | head => exact ⟨rfl, by simp⟩
    | tail _ h2 => exact ih st hst (fun e he => hall e (by simp [he])) r h2

/-- C1: in the main loop, two consecutive cycles failing with the identical
error message produce exactly one outbound notification of that message
(on its first occurrence, i.e. when it differs from the current marker),
the message is logged at error severity on every failing cycle, and a
subsequent cycle failing with a different message produces a second
notification and replaces the last-error marker. -/
theorem claim_C1 (cfg : Config) (e1 e2 e3 : CycleEnv) (st : LoopState)
    (m m2 : String)
    (h1 : cycleErrorMessage cfg e1 = some m)
    (h2 : cycleErrorMessage cfg e2 = some m)
    (h3 : cycleErrorMessage cfg e3 = some m2)
    (hfirst : st.last_error_message ≠ m)
    (hdiff : m2 ≠ m) :
    (runCycle cfg e1 st).sendAttempts = [m] ∧
    (runCycle cfg e2 (runCycle cfg e1 st).state).sendAttempts = [] ∧
    LogEvent.mk .error m ∈ (runCycle cfg e1 st).logs ∧
    LogEvent.mk .error m ∈ (runCycle cfg e2 (runCycle cfg e1 st).state).logs ∧
    (runCycle cfg e1 st).state.last_error_message = m ∧
    (runCycle cfg e2 (runCycle cfg e1 st).state).state.last_error_message = m ∧
    (runCycle cfg e3
      (runCycle cfg e2 (runCycle cfg e1 st).state).state).sendAttempts = [m2] ∧
    (runCycle cfg e3
      (runCycle cfg e2 (runCycle cfg e1 st).state).state).state.last_error_message
      = m2 := by
  have r1 := runCycle_fail_new cfg e1 st m h1 hfirst
  have r2 := runCycle_fail_old cfg e2 { st with last_error_message := m } m h2 rfl
  have r3 := runCycle_fail_new cfg e3 { st with last_error_message := m } m2 h3
    (Ne.symm hdiff)
  simp only [r1]
  simp only [r2]
  simp only [r3]
  simp

/-- C1 witness: two 404-cycles then a 500-cycle from a fresh state. -/
theorem claim_C1_witness :
    (runCycle cfgW env404 st0).sendAttempts = [m404] ∧
    (runCycle cfgW env404 (runCycle cfgW env404 st0).state).sendAttempts = [] ∧
    (runCycle cfgW env500
      (runCycle cfgW env404 (runCycle cfgW env404 st0).state).state).sendAttempts
      = [m500] := by
  have h := claim_C1 cfgW env404 env404 env500 st0 m404 m500 rfl rfl rfl
    (by decide) (by decide)
  exact ⟨h.1, h.2.1, h.2.2.2.2.2.2.1⟩

/-- C2: a configuration with any of the three values absent makes the cycle
halt the process at once — critical log, no HTTP request, no notification,
state untouched — and this is the only halting (non-retried) failure:
with all three values present the cycle never halts. -/
theorem claim_C2 (cfg : Config) (env : CycleEnv) (st : LoopState) :
    ((cfg.practicum_token = none ∨ cfg.telegram_token = none ∨
        cfg.telegram_chat_id = none) →
      (runCycle cfg env st).halted = true ∧
      (runCycle cfg env st).requests = [] ∧
      (runCycle cfg env st).sendAttempts = [] ∧
      (runCycle cfg env st).state = st ∧
      ∃ m, (runCycle cfg env st).logs = [LogEvent.mk .critical m]) ∧
    (∀ a b c, cfg = ⟨some a, some b, some c⟩ →
      (runCycle cfg env st).halted = false) := by
  constructor
  · intro hmiss
    obtain ⟨m0, hct⟩ := check_tokens_missing cfg hmiss
    have htry : tryOutcome cfg env = .error (.envVariableError m0) := by
      unfold tryOutcome
      rw [hct]
    rw [runCycle_eq_env cfg env st m0 htry]
    exact ⟨rfl, rfl, rfl, rfl, ⟨m0, rfl⟩⟩
  · rintro a b c rfl
    cases htry : tryOutcome ⟨some a, some b, some c⟩ env with
    | ok p =>
      obtain ⟨msg?, cd⟩ := p
      cases msg? with
      | none => rw [runCycle_eq_ok_none _ _ _ _ htry]
      | some mm => rw [runCycle_eq_ok_some _ _ _ _ _ htry]
    | error e =>
      have henv := tryOutcome_not_env _ env e (check_tokens_complete a b c) htry
      rw [runCycle_eq_fail _ env st e htry henv]
      split <;> rfl

/-- C2 witness: a missing `PRACTICUM_TOKEN` halts without a request; a
complete configuration does not halt. -/
theorem claim_C2_witness :
    ((runCycle cfgM envOk st0).halted = true ∧
      (runCycle cfgM envOk st0).requests = []) ∧
    (runCycle cfgW envOk st0).halted = false := by
  have hm := (claim_C2 cfgM envOk st0).1 (Or.inl rfl)
  have hc := (claim_C2 cfgW envOk st0).2 "practicum-token" "telegram-token"
    "chat-id" rfl
  exact ⟨⟨hm.1, hm.2.1⟩, hc⟩

theorem get_api_answer_200 (env : CycleEnv) (r : Val)
    (hfetch : env.fetch = .resp ⟨200, some r⟩) :
    get_api_answer env.fetch = .ok r := by
  rw [hfetch]
  rfl

theorem check_response_ok (kvs : List (String × Val)) (cd : Int) (hws : List Val)
    (hcd : pyGet kvs "current_date" = .int cd)
    (hhw : pyGet kvs "homeworks" = .list hws) :
    check_response (.dict kvs) = .ok () := by
  simp [check_response, hcd, hhw, isNull, isIntVal, isListVal]

theorem tryOutcome_empty (a b c : String) (env : CycleEnv)
    (kvs : List (String × Val)) (cd : Int)
    (hfetch : env.fetch = .resp ⟨200, some (.dict kvs)⟩)
    (hcd : pyGet kvs "current_date" = .int cd)
    (hhw : pyGet kvs "homeworks" = .list []) :
    tryOutcome ⟨some a, some b, some c⟩ env = .ok (none, .int cd) := by
  have hga := get_api_answer_200 env (.dict kvs) hfetch
  have hcr := check_response_ok kvs cd [] hcd hhw
  simp [tryOutcome, check_tokens_complete a b c, hga, hcr, pyDictGet, hhw, hcd,
    pyTruthy]

theorem tryOutcome_first_hw (a b c : String) (env : CycleEnv)
    (kvs : List (String × Val)) (cd : Int) (hw : Val) (rest : List Val)
    (msg : String)
    (hfetch : env.fetch = .resp ⟨200, some (.dict kvs)⟩)
    (hcd : pyGet kvs "current_date" = .int cd)
    (hhw : pyGet kvs "homeworks" = .list (hw :: rest))
    (hp : parse_status hw = .ok msg) :
    tryOutcome ⟨some a, some b, some c⟩ env = .ok (some msg, .int cd) := by
  have hga := get_api_answer_200 env (.dict kvs) hfetch
  have hcr := check_response_ok kvs cd (hw :: rest) hcd hhw
  simp [tryOutcome, check_tokens_complete a b c, hga, hcr, pyDictGet, hhw, hcd,
    pyTruthy, pySubscript0, hp]

theorem tryOutcome_of_check_response_error (a b c : String) (env : CycleEnv)
    (r : Val) (e : Err)
    (hfetch : env.fetch = .resp ⟨200, some r⟩)
    (hcr : check_response r = .error e) :
    tryOutcome ⟨some a, some b, some c⟩ env = .error e := by
  have hga := get_api_answer_200 env r hfetch
  simp [tryOutcome, check_tokens_complete a b c, hga, hcr]

theorem tryOutcome_of_parse_error (a b c : String) (env : CycleEnv)
    (kvs : List (String × Val)) (cd : Int) (hw : Val) (rest : List Val) (e : Err)
    (hfetch : env.fetch = .resp ⟨200, some (.dict kvs)⟩)
    (hcd : pyGet kvs "current_date" = .int cd)
    (hhw : pyGet kvs "homeworks" = .list (hw :: rest))
    (hp : parse_status hw = .error e) :
    tryOutcome ⟨some a, some b, some c⟩ env = .error e := by
  have hga := get_api_answer_200 env (.dict kvs) hfetch
  have hcr := check_response_ok kvs cd (hw :: rest) hcd hhw
  simp [tryOutcome, check_tokens_complete a b c, hga, hcr, pyDictGet, hhw, hcd,
    pyTruthy, pySubscript0, hp]

/-- C4: a valid response whose `homeworks` sequence is empty makes the
cycle succeed: no notification is attempted, a debug-level "no new
status" line is the only log, the cursor is set to the response's
`current_date`, and the last-error marker is reset to empty. -/
theorem claim_C4 (a b c : String) (env : CycleEnv) (st : LoopState)
    (kvs : List (String × Val)) (cd : Int)
    (hfetch : env.fetch = .resp ⟨200, some (.dict kvs)⟩)
    (hcd : pyGet kvs "current_date" = .int cd)
    (hhw : pyGet kvs "homeworks" = .list []) :
    runCycle ⟨some a, some b, some c⟩ env st =
      { state := { timestamp := .int cd, last_error_message := "" },
        halted := false,
        requests := [buildRequest ⟨some a, some b, some c⟩ st.timestamp],
        sendAttempts := [],
        delivered := [],
        logs := [⟨.debug, "Новый статус отсутствует"⟩] } :=
  runCycle_eq_ok_none _ env st (.int cd)
    (tryOutcome_empty a b c env kvs cd hfetch hcd hhw)

/-- C4 witness: the empty-homeworks response `respEmpty` at state `st0`. -/
theorem claim_C4_witness :
    runCycle cfgW envEmpty st0 =
      { state := { timestamp := .int 77, last_error_message := "" },
        halted := false,
        requests := [buildRequest cfgW (.int 0)],
        sendAttempts := [],
        delivered := [],
        logs := [⟨.debug, "Новый статус отсутствует"⟩] } :=
  claim_C4 "practicum-token" "telegram-token" "chat-id" envEmpty st0
    [("current_date", .int 77), ("homeworks", .list [])] 77 rfl rfl rfl

/-- C6: when the status notification is extracted but the messaging send
raises, the failure is only logged: the cycle still succeeds, the cursor
advances to `current_date`, the marker is cleared, exactly one send is
attempted and nothing is delivered or retried. -/
theorem claim_C6 (a b c : String) (env : CycleEnv) (st : LoopState)
    (kvs : List (String × Val)) (cd : Int) (hw : Val) (rest : List Val)
    (msg serr : String)
    (hfetch : env.fetch = .resp ⟨200, some (.dict kvs)⟩)
    (hcd : pyGet kvs "current_date" = .int cd)
    (hhw : pyGet kvs "homeworks" = .list (hw :: rest))
    (hp : parse_status hw = .ok msg)
    (hsend : env.send = some serr) :
    runCycle ⟨some a, some b, some c⟩ env st =
      { state := { timestamp := .int cd, last_error_message := "" },
        halted := false,
        requests := [buildRequest ⟨some a, some b, some c⟩ st.timestamp],
        sendAttempts := [msg],
        delivered := [],
        logs := [⟨.error, "Не удалось отправить сообщение по причине: " ++ serr⟩] } := by
  rw [runCycle_eq_ok_some _ env st msg (.int cd)
      (tryOutcome_first_hw a b c env kvs cd hw rest msg hfetch hcd hhw hp),
    hsend]
  rfl

/-- C6 witness: the `resp1000` fetch with a raising send. -/
theorem claim_C6_witness :
    runCycle cfgW envOkSf st0 =
      { state := { timestamp := .int 1000, last_error_message := "" },
        halted := false,
        requests := [buildRequest cfgW (.int 0)],
        sendAttempts := [msg1],
        delivered := [],
        logs := [⟨.error, "Не удалось отправить сообщение по причине: boom"⟩] } :=
  claim_C6 "practicum-token" "telegram-token" "chat-id" envOkSf st0
    [("current_date", .int 1000), ("homeworks", .list [hw1])] 1000 hw1 [] msg1
    "boom" rfl rfl rfl rfl rfl

/-- C5: on the response with `current_date` 1000 and the single approved
record for "hw1", the cycle attempts and delivers exactly one
notification whose text mentions "hw1" and the approved verdict phrase,
and the cursor becomes 1000; appending any further record to the
`homeworks` sequence leaves the whole cycle result unchanged (only the
first record is inspected). -/
theorem claim_C5 (st : LoopState) (junk : Val) :
    (runCycle cfgW envOk st).sendAttempts = [msg1] ∧
    (runCycle cfgW envOk st).delivered = [msg1] ∧
    mentions msg1 "hw1" ∧
    mentions msg1 "ревьюеру всё понравилось" ∧
    (runCycle cfgW envOk st).state.timestamp = .int 1000 ∧
    (runCycle cfgW envOk st).halted = false ∧
    runCycle cfgW ⟨.resp ⟨200, some (.dict [("current_date", .int 1000),
      ("homeworks", .list [hw1, junk])])⟩, none⟩ st = runCycle cfgW envOk st :=
  ⟨rfl, rfl,
    ⟨"Изменился статус проверки работы \"", "\". Работа проверена: ревьюеру всё понравилось. Ура!", rfl⟩,
    ⟨"Изменился статус проверки работы \"hw1\". Работа проверена: ", ". Ура!", rfl⟩,
    rfl, rfl, rfl⟩

/-- C8: with a complete configuration every cycle issues exactly one GET
request to `ENDPOINT` with the `OAuth` authorization header and
`from_date` equal to the current cursor; a non-200 status yields an
availability failure whose message includes the status code, and an
unparseable 200 body yields a format failure. -/
theorem claim_C8 (cfg : Config) (env : CycleEnv) (st : LoopState)
    (a b c : String) (hcfg : cfg = ⟨some a, some b, some c⟩) :
    (runCycle cfg env st).requests =
      [{ url := ENDPOINT, authorization := "OAuth " ++ a,
         from_date := st.timestamp }] ∧
    (∀ code body, env.fetch = .resp ⟨code, body⟩ → code ≠ 200 →
      get_api_answer env.fetch = .error (.apiUnavailableError
        ("Эндпоинт " ++ ENDPOINT ++ " недоступен. Код ответа API: "
          ++ toString code)) ∧
      mentions ("Эндпоинт " ++ ENDPOINT ++ " недоступен. Код ответа API: "
          ++ toString code) (toString code)) ∧
    (env.fetch = .resp ⟨200, none⟩ →
      get_api_answer env.fetch = .error (.notJSONResponseError
        ("API " ++ ENDPOINT ++ " вернул ответ не в json формате."))) := by
  subst hcfg
  refine ⟨?_, ?_, ?_⟩
  · cases htry : tryOutcome ⟨some a, some b, some c⟩ env with
    | ok p =>
      obtain ⟨msg?, cd⟩ := p
      cases msg? with
      | none => rw [runCycle_eq_ok_none _ _ _ _ htry]; rfl
      | some mm => rw [runCycle_eq_ok_some _ _ _ _ _ htry]; rfl
    | error e =>
      have henv := tryOutcome_not_env _ env e (check_tokens_complete a b c) htry
      rw [runCycle_eq_fail _ env st e htry henv]
      split <;> rfl
  · intro code body hf hne
    rw [hf]
    constructor
    · simp only [get_api_answer]
      rw [if_pos hne]
    · refine ⟨"Эндпоинт " ++ ENDPOINT ++ " недоступен. Код ответа API: ", "", ?_⟩
      simp [String.append_assoc, String.append_empty]
  · intro hf
    rw [hf]
    rfl

/-- C8 witness: the 404 fetch and the unparseable-body fetch. -/
theorem claim_C8_witness :
    (runCycle cfgW env404 st0).requests =
      [{ url := ENDPOINT, authorization := "OAuth practicum-token",
         from_date := .int 0 }] ∧
    get_api_answer env404.fetch = .error (.apiUnavailableError
      ("Эндпоинт " ++ ENDPOINT ++ " недоступен. Код ответа API: "
        ++ toString 404)) ∧
    get_api_answer envBadJson.fetch = .error (.notJSONResponseError
      ("API " ++ ENDPOINT ++ " вернул ответ не в json формате.")) := by
  have h1 := claim_C8 cfgW env404 st0 "practicum-token" "telegram-token"
    "chat-id" rfl
  have h2 := claim_C8 cfgW envBadJson st0 "practicum-token" "telegram-token"
    "chat-id" rfl
  exact ⟨h1.1, (h1.2.1 404 none rfl (by decide)).1, h2.2.2 rfl⟩

/-- C3: a parsed response that is not a mapping, lacks `current_date` or
`homeworks` (a `dict.get` returning `None`), or carries them with the
wrong type, makes `check_response` fail with a contract error naming the
key or the expected and actual types; the whole cycle fails with that
very error before any status inspection, and the cursor keeps its
previous value. -/
theorem claim_C3 (env : CycleEnv) (st : LoopState) (r : Val) (a b c : String)
    (hfetch : env.fetch = .resp ⟨200, some r⟩)
    (hbad : (∀ kvs, r ≠ .dict kvs) ∨
      (∃ kvs, r = .dict kvs ∧
        (pyGet kvs "current_date" = .null ∨ pyGet kvs "homeworks" = .null ∨
          isIntVal (pyGet kvs "current_date") = false ∨
          isListVal (pyGet kvs "homeworks") = false))) :
    ∃ e, check_response r = .error e ∧ isContractErr e = true ∧
      contractErrorNamed e ∧
      tryOutcome ⟨some a, some b, some c⟩ env = .error e ∧
      (runCycle ⟨some a, some b, some c⟩ env st).state.timestamp
        = st.timestamp ∧
      (runCycle ⟨some a, some b, some c⟩ env st).halted = false := by
  suffices h : ∃ e, check_response r = .error e ∧ isContractErr e = true ∧
      contractErrorNamed e by
    obtain ⟨e, hcr, hc, hn⟩ := h
    have htry := tryOutcome_of_check_response_error a b c env r e hfetch hcr
    have hf := runCycle_fail_facts _ env st e htry (isContractErr_not_env e hc)
    exact ⟨e, hcr, hc, hn, htry, hf.1, hf.2⟩
  rcases hbad with hnd | ⟨kvs, rfl, hcond⟩
  · have hcr : check_response r = .error (.typeError
        ("В ответе API структура данных не соответствует ожиданиям. Получен тип "
          ++ pyTypeName r ++ ". Ожидается: dict")) := by
      cases r
      · rfl
      · rfl
      · rfl
      · rfl
      · exact absurd rfl (hnd _)
    refine ⟨_, hcr, rfl, Or.inr ⟨_, r, rfl, ?_, Or.inl ?_⟩⟩
    · exact ⟨"В ответе API структура данных не соответствует ожиданиям. Получен тип ",
        ". Ожидается: dict", rfl⟩
    · refine ⟨"В ответе API структура данных не соответствует ожиданиям. Получен тип "
        ++ (pyTypeName r ++ ". "), "", ?_⟩
      simp [String.append_assoc, String.append_empty]
  · by_cases h1 : isNull (pyGet kvs "current_date") = true
    · have hcr : check_response (.dict kvs) = .error
          (.missingKeyError "В ответе API отсутствует ключ current_date") := by
        simp [check_response, h1]
      exact ⟨_, hcr, rfl, Or.inl ⟨_, rfl, Or.inl
        ⟨"В ответе API отсутствует ключ ", "", by decide⟩⟩⟩
    · by_cases h2 : isNull (pyGet kvs "homeworks") = true
      · have hcr : check_response (.dict kvs) = .error
            (.missingKeyError "В ответе API отсутствует ключ homeworks") := by
          simp [check_response, h1, h2]
        exact ⟨_, hcr, rfl, Or.inl ⟨_, rfl, Or.inr
          ⟨"В ответе API отсутствует ключ ", "", by decide⟩⟩⟩
      · by_cases h3 : isIntVal (pyGet kvs "current_date") = false
        · have hcr : check_response (.dict kvs) = .error (.typeError
              ("В ответе API значение ключа current_date имеет некорректный тип "
                ++ pyTypeName (pyGet kvs "current_date") ++ ". Ожидается: int")) := by
            simp [check_response, h1, h2, h3]
          refine ⟨_, hcr, rfl, Or.inr ⟨_, pyGet kvs "current_date", rfl, ?_,
            Or.inr (Or.inl ?_)⟩⟩
          · exact ⟨"В ответе API значение ключа current_date имеет некорректный тип ",
              ". Ожидается: int", rfl⟩
          · refine ⟨"В ответе API значение ключа current_date имеет некорректный тип "
              ++ (pyTypeName (pyGet kvs "current_date") ++ ". "), "", ?_⟩
            simp [String.append_assoc, String.append_empty]
        · have h4 : isListVal (pyGet kvs "homeworks") = false := by
            rcases hcond with hc | hc | hc | hc
            · exact absurd (by simp [hc, isNull]) h1
            · exact absurd (by simp [hc, isNull]) h2
            · exact absurd hc h3
            · exact hc
          have hcr : check_response (.dict kvs) = .error (.typeError
              ("В ответе API значение ключа homeworks имеет некорректный тип "
                ++ pyTypeName (pyGet kvs "homeworks") ++ ". Ожидается: list")) := by
            simp [check_response, h1, h2, h3, h4]
          refine ⟨_, hcr, rfl, Or.inr ⟨_, pyGet kvs "homeworks", rfl, ?_,
            Or.inr (Or.inr ?_)⟩⟩
          · exact ⟨"В ответе API значение ключа homeworks имеет некорректный тип ",
              ". Ожидается: list", rfl⟩
          · refine ⟨"В ответе API значение ключа homeworks имеет некорректный тип "
              ++ (pyTypeName (pyGet kvs "homeworks") ++ ". "), "", ?_⟩
            simp [String.append_assoc, String.append_empty]

/-- C3 witness: the response `[]` (a list, not a mapping) at state `st0`. -/
theorem claim_C3_witness :
    ∃ e, check_response (.list []) = .error e ∧ isContractErr e = true ∧
      contractErrorNamed e ∧
      tryOutcome cfgW ⟨.resp ⟨200, some (.list [])⟩, none⟩ = .error e ∧
      (runCycle cfgW ⟨.resp ⟨200, some (.list [])⟩, none⟩ st0).state.timestamp
        = st0.timestamp ∧
      (runCycle cfgW ⟨.resp ⟨200, some (.list [])⟩, none⟩ st0).halted = false :=
  claim_C3 ⟨.resp ⟨200, some (.list [])⟩, none⟩ st0 (.list [])
    "practicum-token" "telegram-token" "chat-id" rfl
    (Or.inl (fun kvs h => by cases h))

/-- C9: at every validation step a required key bound to `None` is
indistinguishable from an absent key — `check_response` on a response
whose `current_date` (resp. `homeworks`) is bound to null equals
`check_response` on the same response without the key, and likewise
`parse_status` for `homework_name` and `status`. -/
theorem claim_C9 (kvs1 kvs2 kvs3 kvs4 : List (String × Val))
    (h1 : ∀ p ∈ kvs1, p.1 ≠ "current_date")
    (h2 : ∀ p ∈ kvs2, p.1 ≠ "homeworks")
    (h3 : ∀ p ∈ kvs3, p.1 ≠ "homework_name")
    (h4 : ∀ p ∈ kvs4, p.1 ≠ "status") :
    check_response (.dict (("current_date", .null) :: kvs1))
      = check_response (.dict kvs1) ∧
    check_response (.dict (("homeworks", .null) :: kvs2))
      = check_response (.dict kvs2) ∧
    parse_status (.dict (("homework_name", .null) :: kvs3))
      = parse_status (.dict kvs3) ∧
    parse_status (.dict (("status", .null) :: kvs4))
      = parse_status (.dict kvs4) := by
  refine ⟨?_, ?_, ?_, ?_⟩
  · have l1 : pyGet (("current_date", Val.null) :: kvs1) "current_date"
        = Val.null := pyGet_cons_self _ _ _
    have l2 := pyGet_absent kvs1 "current_date" h1
    have l3 : pyGet (("current_date", Val.null) :: kvs1) "homeworks"
        = pyGet kvs1 "homeworks" := pyGet_cons_ne _ _ _ _ (by decide)
    simp [check_response, l1, l2, l3, isNull]
  · have l1 : pyGet (("homeworks", Val.null) :: kvs2) "homeworks"
        = Val.null := pyGet_cons_self _ _ _
    have l2 := pyGet_absent kvs2 "homeworks" h2
    have l3 : pyGet (("homeworks", Val.null) :: kvs2) "current_date"
        = pyGet kvs2 "current_date" := pyGet_cons_ne _ _ _ _ (by decide)
    simp [check_response, l1, l2, l3, isNull]
  · have l1 : pyGet (("homework_name", Val.null) :: kvs3) "homework_name"
        = Val.null := pyGet_cons_self _ _ _
    have l2 := pyGet_absent kvs3 "homework_name" h3
    have l3 : pyGet (("homework_name", Val.null) :: kvs3) "status"
        = pyGet kvs3 "status" := pyGet_cons_ne _ _ _ _ (by decide)
    simp [parse_status, pyDictGet, l1, l2, l3, isNull]
  · have l1 : pyGet (("status", Val.null) :: kvs4) "status"
        = Val.null := pyGet_cons_self _ _ _
    have l2 := pyGet_absent kvs4 "status" h4
    have l3 : pyGet (("status", Val.null) :: kvs4) "homework_name"
        = pyGet kvs4 "homework_name" := pyGet_cons_ne _ _ _ _ (by decide)
    simp [parse_status, pyDictGet, l1, l2, l3, isNull]

/-- C9 witness: the empty record, with each key bound to null in turn. -/
theorem claim_C9_witness :
    check_response (.dict [("current_date", .null)]) = check_response (.dict []) ∧
    check_response (.dict [("homeworks", .null)]) = check_response (.dict []) ∧
    parse_status (.dict [("homework_name", .null)]) = parse_status (.dict []) ∧
    parse_status (.dict [("status", .null)]) = parse_status (.dict []) :=
  claim_C9 [] [] [] [] (by simp) (by simp) (by simp) (by simp)

/-- C7 counterexample: a record whose status is the list `[]` is not one
of the three enumerated values, yet the cycle does not fail with an
`UnexpectedStatusError` — subscripting `HOMEWORK_VERDICTS` with an
unhashable key raises `TypeError` before the `except KeyError` handler,
so the cycle fails with a type error instead. -/
theorem claim_C7_counterexample :
    parse_status hwListStatus = .error (.typeError "unhashable type: \x27list\x27") ∧
    isUnexpectedStatusResult (parse_status hwListStatus) = false ∧
    cycleErrorMessage cfgW ⟨.resp ⟨200, some respListStatus⟩, none⟩
      = some "Сбой в работе программы: unhashable type: \x27list\x27" :=
  ⟨rfl, rfl, rfl⟩

/-- C7 amended: a record whose status is a non-null HASHABLE value not
among the three enumerated statuses makes the cycle fail with an
`UnexpectedStatusError` (distinct from a missing-key failure) and the
cursor keeps its value; a record with a null `homework_name` or null
`status` yields the corresponding missing-key failure; an unhashable
status (list or dict) instead yields a type error (see the
counterexample). -/
theorem claim_C7_amended (env : CycleEnv) (st : LoopState) (a b c : String)
    (kvs rkvs : List (String × Val)) (cd : Int) (rest : List Val) (sv : Val)
    (hfetch : env.fetch = .resp ⟨200, some (.dict rkvs)⟩)
    (hcd : pyGet rkvs "current_date" = .int cd)
    (hhw : pyGet rkvs "homeworks" = .list (.dict kvs :: rest))
    (hname : isNull (pyGet kvs "homework_name") = false)
    (hstatus : pyGet kvs "status" = sv)
    (hsnn : isNull sv = false)
    (hhash : pyHashable sv = true)
    (hunknown : statusKnown sv = false) :
    parse_status (.dict kvs) = .error (.unexpectedStatusError
      ("Неожиданный статус домашней работы в ответе API: " ++ pyStr sv)) ∧
    (runCycle ⟨some a, some b, some c⟩ env st).state.timestamp = st.timestamp ∧
    (runCycle ⟨some a, some b, some c⟩ env st).halted = false ∧
    (∀ kvs2, pyGet kvs2 "homework_name" = Val.null →
      parse_status (.dict kvs2) = .error (.missingKeyError
        "В ответе API отсутствует ключ homework_name")) ∧
    (∀ kvs2 hn2, pyGet kvs2 "homework_name" = hn2 → isNull hn2 = false →
      pyGet kvs2 "status" = Val.null →
      parse_status (.dict kvs2) = .error (.missingKeyError
        "В ответе API отсутствует ключ status")) := by
  have hvs : verdictSubscript sv = .error (.unexpectedStatusError
      ("Неожиданный статус домашней работы в ответе API: " ++ pyStr sv)) := by
    cases sv with
    | null => simp [isNull] at hsnn
    | int n => rfl
    | str sstr =>
      have hnone : HOMEWORK_VERDICTS.lookup sstr = none := by
        have := hunknown
        simp only [statusKnown] at this
        exact Option.not_isSome_iff_eq_none.mp (by simp [this])
      simp [verdictSubscript, hnone, pyStr]
    | list xs => simp [pyHashable] at hhash
    | dict dkvs => simp [pyHashable] at hhash
  have hp : parse_status (.dict kvs) = .error (.unexpectedStatusError
      ("Неожиданный статус домашней работы в ответе API: " ++ pyStr sv)) := by
    simp [parse_status, pyDictGet, hstatus, hname, hsnn, hvs]
  have htry := tryOutcome_of_parse_error a b c env rkvs cd (.dict kvs) rest _
    hfetch hcd hhw hp
  have hf := runCycle_fail_facts _ env st _ htry rfl
  refine ⟨hp, hf.1, hf.2, ?_, ?_⟩
  · intro kvs2 hnull
    simp [parse_status, pyDictGet, hnull, isNull]
  · intro kvs2 hn2 hget hn2nn hsnull
    simp [parse_status, pyDictGet, hget, hn2nn, hsnull, isNull]
    exact hn2nn

/-- C7 witness for the amended claim: the "weird" status record. -/
theorem claim_C7_witness :
    parse_status hwWeird = .error (.unexpectedStatusError
      ("Неожиданный статус домашней работы в ответе API: " ++ pyStr (.str "weird"))) ∧
    (runCycle cfgW envWeird st0).state.timestamp = st0.timestamp := by
  have h := claim_C7_amended envWeird st0 "practicum-token" "telegram-token"
    "chat-id" [("homework_name", .str "hw1"), ("status", .str "weird")]
    [("current_date", .int 5), ("homeworks", .list [hwWeird])] 5 [] (.str "weird")
    rfl rfl rfl rfl rfl rfl rfl rfl
  exact ⟨h.1, h.2.1⟩

/-- C10 counterexample: a run `[failure with send error, successful
cycle, same failure again]`.  The first cycle's send of the new error
message `m404` fails (nothing delivered) and the marker is updated; yet
the third cycle, which produces the same error message, notifies it
again (and delivers it) because the intervening successful cycle reset
the marker — so the message is NOT "never re-notified on later cycles
producing the same error". -/
theorem claim_C10_counterexample :
    ((runLoop cfgW st0 [env404sf, envEmpty, env404]).map
      (fun r => r.sendAttempts)) = [[m404], [], [m404]] ∧
    ((runLoop cfgW st0 [env404sf, envEmpty, env404]).map
      (fun r => r.delivered)) = [[], [], [m404]] :=
  ⟨rfl, rfl⟩

/-- C10 amended: when a cycle fails with a new error message, the marker
is updated to that message regardless of whether the notification send
succeeded; consequently, if the send of a new error message fails, the
message is not re-notified on later cycles producing the same error so
long as every intervening cycle also fails with that same message (an
intervening success, or a different error, resets or replaces the
marker and the message is notified again). -/
theorem claim_C10_amended (cfg : Config) (env1 : CycleEnv) (st : LoopState)
    (m serr : String)
    (h1 : cycleErrorMessage cfg env1 = some m)
    (hsend : env1.send = some serr)
    (hfirst : st.last_error_message ≠ m) :
    (runCycle cfg env1 st).sendAttempts = [m] ∧
    (runCycle cfg env1 st).delivered = [] ∧
    (runCycle cfg env1 st).state.last_error_message = m ∧
    ∀ envs, (∀ e ∈ envs, cycleErrorMessage cfg e = some m) →
      ∀ r ∈ runLoop cfg (runCycle cfg env1 st).state envs,
        r.sendAttempts = [] ∧ LogEvent.mk .error m ∈ r.logs := by
  have r1 := runCycle_fail_new cfg env1 st m h1 hfirst
  refine ⟨by simp only [r1], by simp only [r1, hsend, send_message], by simp only [r1], ?_⟩
  intro envs hall r hr
  rw [r1] at hr
  exact runLoop_same_error cfg m envs { st with last_error_message := m } rfl hall r hr

/-- C10 witness for the amended claim: a 404 failure whose send raises,
followed by two more 404 cycles. -/
theorem claim_C10_witness :
    (runCycle cfgW env404sf st0).sendAttempts = [m404] ∧
    (runCycle cfgW env404sf st0).delivered = [] ∧
    ∀ r ∈ runLoop cfgW (runCycle cfgW env404sf st0).state [env404, env404],
      r.sendAttempts = [] := by
  have h := claim_C10_amended cfgW env404sf st0 m404 "boom" rfl rfl (by decide)
  refine ⟨h.1, h.2.1, ?_⟩
  intro r hr
  exact (h.2.2.2 [env404, env404] (by intro e he; simp at he; rw [he]; rfl) r hr).1

end HomeworkBot
